import Mathlib

/-!
Verification development for the Span stock screener's metrics-derivation,
screening, and signal-aggregation pipeline.  The repository ships the
algorithm documentation (a PDF generator whose embedded tables and code
blocks describe the pipeline); the screening engine itself (Kotlin) is not
part of the repository, so the pipeline below is modelled from the
specification's words and settled against that model.

Decimals are modelled as rationals; every optional input or derived metric
is an `Option ℚ`, with `none` standing for "absent"/"undefined".
-/

namespace Span

/-- Modelled from the spec: the traffic-light result of a screening check
(GREEN bullish, YELLOW neutral/caution, RED bearish).  The screening-engine
implementation is absent from the repository; only its documentation is. -/
inductive Light
  | GREEN
  | YELLOW
  | RED
deriving DecidableEq, Repr

/-- Modelled from the spec: the final recommendation signal. -/
inductive Signal
  | BUY
  | SELL
  | HOLD
deriving DecidableEq, Repr

/-- Modelled from the spec: the confidence level of a recommendation. -/
inductive Confidence
  | HIGH
  | MEDIUM
  | LOW
deriving DecidableEq, Repr

/-- Modelled from the spec: one quarter of financial statements as fetched
from the upstream provider; every numeric field is optional. -/
structure QuarterlyFinancials where
  revenues : Option ℚ
  gross_profit : Option ℚ
  operating_income_loss : Option ℚ
  net_income_loss : Option ℚ
  other_current_assets : Option ℚ
  long_term_debt : Option ℚ
  current_liabilities : Option ℚ
  operating_cash_flow : Option ℚ
  investing_cash_flow : Option ℚ
  fiscal_period : String
deriving DecidableEq, Repr

/-- Modelled from the spec: the immutable input snapshot for one ticker.
Any field may be absent; `quarters` is ordered most recent first (up to 8). -/
structure TickerSnapshot where
  name : Option String
  market_cap : Option ℚ
  shares_outstanding : Option ℚ
  close_price : Option ℚ
  quarters : List QuarterlyFinancials
  sma50 : Option ℚ
  rsi14 : Option ℚ
deriving DecidableEq, Repr

/-- Modelled from the spec: the output of MetricsEngine; each field is a
decimal value or explicitly undefined.  (The `pe`, `ps`, `cash_debt` fields
are the P/E ratio, P/S ratio and Cash/Debt ratio of the specification.) -/
structure DerivedMetrics where
  ttm_revenue : Option ℚ
  ttm_net_income : Option ℚ
  eps : Option ℚ
  pe : Option ℚ
  ps : Option ℚ
  gross_margin_pct : Option ℚ
  operating_margin_pct : Option ℚ
  profit_margin_pct : Option ℚ
  fcf_margin_pct : Option ℚ
  yoy_growth_pct : Option ℚ
  cash : Option ℚ
  total_debt : Option ℚ
  cash_debt : Option ℚ
deriving DecidableEq, Repr

/-- Sum of a list of optional values; undefined as soon as one entry is
absent (the spec's "no partial sums"). -/
def sumOpt : List (Option ℚ) → Option ℚ
  | [] => some 0
  | none :: _ => none
  | some x :: rest => (sumOpt rest).map (fun s => x + s)

/-- Modelled from the spec: the recent 4-quarter (TTM) window — defined only
when at least 4 quarters were supplied. -/
def recentWindow (qs : List QuarterlyFinancials) : Option (List QuarterlyFinancials) :=
  if 4 ≤ qs.length then some (qs.take 4) else none

/-- Modelled from the spec: the prior 4-quarter (YoY-baseline) window —
defined only when all 8 quarters were supplied. -/
def priorWindow (qs : List QuarterlyFinancials) : Option (List QuarterlyFinancials) :=
  if 8 ≤ qs.length then some ((qs.drop 4).take 4) else none

/-- Sum of the revenues of the prior 4-quarter window. -/
def priorRevSum (s : TickerSnapshot) : Option ℚ :=
  (priorWindow s.quarters).bind (fun w => sumOpt (w.map QuarterlyFinancials.revenues))

/-- A margin percentage: numerator over revenue times 100, undefined when
either side is undefined or revenue is zero. -/
def marginPct (num rev : Option ℚ) : Option ℚ :=
  match num, rev with
  | some n, some r => if r ≠ 0 then some (n / r * 100) else none
  | _, _ => none

/-- Modelled from the spec: TTM revenue — sum of `revenues` over the recent
4-quarter window, undefined if the window is short or any entry is absent. -/
def ttmRevenueOf (s : TickerSnapshot) : Option ℚ :=
  (recentWindow s.quarters).bind (fun w => sumOpt (w.map QuarterlyFinancials.revenues))

/-- Modelled from the spec: TTM net income — sum of `net_income_loss` over
the recent 4-quarter window, same guards as TTM revenue. -/
def ttmNetIncomeOf (s : TickerSnapshot) : Option ℚ :=
  (recentWindow s.quarters).bind (fun w => sumOpt (w.map QuarterlyFinancials.net_income_loss))

/-- Modelled from the spec: EPS = TTM net income / shares outstanding;
undefined if shares outstanding is absent or zero. -/
def epsOf (s : TickerSnapshot) : Option ℚ :=
  match ttmNetIncomeOf s, s.shares_outstanding with
  | some ni, some sh => if sh ≠ 0 then some (ni / sh) else none
  | _, _ => none

/-- Modelled from the spec: P/E = close price / EPS, defined only if
EPS > 0 (loss-making companies get an undefined P/E, never a negative one). -/
def peOf (s : TickerSnapshot) : Option ℚ :=
  match s.close_price, epsOf s with
  | some p, some e => if 0 < e then some (p / e) else none
  | _, _ => none

/-- Modelled from the spec: P/S = market cap / TTM revenue; undefined if
TTM revenue is zero or undefined. -/
def psOf (s : TickerSnapshot) : Option ℚ :=
  match s.market_cap, ttmRevenueOf s with
  | some mc, some rev => if rev ≠ 0 then some (mc / rev) else none
  | _, _ => none

/-- Modelled from the spec: gross margin percentage over the recent window. -/
def grossMarginOf (s : TickerSnapshot) : Option ℚ :=
  marginPct ((recentWindow s.quarters).bind
    (fun w => sumOpt (w.map QuarterlyFinancials.gross_profit))) (ttmRevenueOf s)

/-- Modelled from the spec: operating margin percentage over the recent window. -/
def operatingMarginOf (s : TickerSnapshot) : Option ℚ :=
  marginPct ((recentWindow s.quarters).bind
    (fun w => sumOpt (w.map QuarterlyFinancials.operating_income_loss))) (ttmRevenueOf s)

/-- Modelled from the spec: profit margin percentage over the recent window. -/
def profitMarginOf (s : TickerSnapshot) : Option ℚ :=
  marginPct (ttmNetIncomeOf s) (ttmRevenueOf s)

/-- Modelled from the spec: FCF margin percentage — operating plus investing
cash flow summed over the recent window, over TTM revenue. -/
def fcfMarginOf (s : TickerSnapshot) : Option ℚ :=
  marginPct ((recentWindow s.quarters).bind
    (fun w => sumOpt (w.map (fun q =>
      match q.operating_cash_flow, q.investing_cash_flow with
      | some a, some b => some (a + b)
      | _, _ => none)))) (ttmRevenueOf s)

/-- Modelled from the spec: YoY growth percentage, recent 4-quarter revenue
sum against the prior 4-quarter sum; undefined if the prior sum is zero or
cannot be formed. -/
def yoyGrowthOf (s : TickerSnapshot) : Option ℚ :=
  match ttmRevenueOf s, priorRevSum s with
  | some recent, some prior => if prior ≠ 0 then some ((recent - prior) / prior * 100) else none
  | _, _ => none

/-- Modelled from the spec: cash — `other_current_assets` of the single
most-recent quarter. -/
def cashOf (s : TickerSnapshot) : Option ℚ :=
  s.quarters.head?.bind QuarterlyFinancials.other_current_assets

/-- Modelled from the spec: total debt — `long_term_debt` plus
`current_liabilities` of the most-recent quarter. -/
def totalDebtOf (s : TickerSnapshot) : Option ℚ :=
  s.quarters.head?.bind (fun q =>
    match q.long_term_debt, q.current_liabilities with
    | some a, some b => some (a + b)
    | _, _ => none)

/-- Modelled from the spec: Cash/Debt ratio = cash / total debt; undefined
if total debt is zero or either side is undefined. -/
def cashDebtOf (s : TickerSnapshot) : Option ℚ :=
  match cashOf s, totalDebtOf s with
  | some c, some d => if d ≠ 0 then some (c / d) else none
  | _, _ => none

/-- Modelled from the spec: `MetricsEngine.derive` — pure derivation of all
metrics from a snapshot, each guarded so that an absent input or a zero
denominator yields an undefined metric (the implementation is not in the
repository; the formulas and guards follow the specification of §4.1). -/
def derive (s : TickerSnapshot) : DerivedMetrics :=
  { ttm_revenue := ttmRevenueOf s
    ttm_net_income := ttmNetIncomeOf s
    eps := epsOf s
    pe := peOf s
    ps := psOf s
    gross_margin_pct := grossMarginOf s
    operating_margin_pct := operatingMarginOf s
    profit_margin_pct := profitMarginOf s
    fcf_margin_pct := fcfMarginOf s
    yoy_growth_pct := yoyGrowthOf s
    cash := cashOf s
    total_debt := totalDebtOf s
    cash_debt := cashDebtOf s }

/-- Modelled from the spec: check 1 (Margins), first match wins; absent when
gross margin or profit margin is undefined. -/
def checkMargins (gm pm : Option ℚ) : Option Light :=
  match gm, pm with
  | some g, some p =>
    if 50 ≤ g then some Light.GREEN
    else if 30 ≤ g ∧ g < 50 ∧ 10 < p then some Light.YELLOW
    else some Light.RED
  | _, _ => none

/-- Modelled from the spec: check 2 (Price/Sales), first match wins; growth
and FCF margin are consulted only in the middle band `10 < ps < 20`, where
their absence makes the check absent. -/
def checkPriceSales (ps yoy fcf : Option ℚ) : Option Light :=
  match ps with
  | some v =>
    if v ≤ 10 then some Light.GREEN
    else if v < 20 then
      match yoy, fcf with
      | some g, some f => if 30 < g + f then some Light.GREEN else some Light.YELLOW
      | _, _ => none
    else some Light.RED
  | none => none

/-- Modelled from the spec: check 3 (Revenue Growth), first match wins. -/
def checkRevenueGrowth (yoy : Option ℚ) : Option Light :=
  match yoy with
  | some g =>
    if 20 ≤ g then some Light.GREEN
    else if 10 ≤ g then some Light.YELLOW
    else some Light.RED
  | none => none

/-- Modelled from the spec: check 4 (Cash/Debt), first match wins: GREEN at
`1.0 ≤ cd`, else YELLOW at `0.5 ≤ cd < 1.0`, else RED. -/
def checkCashDebt (cd : Option ℚ) : Option Light :=
  match cd with
  | some v =>
    if 1 ≤ v then some Light.GREEN
    else if 1/2 ≤ v then some Light.YELLOW
    else some Light.RED
  | none => none

/-- Modelled from the spec: check 5 (Technicals); requires price, SMA50 and
RSI all defined; `uptrend = price > sma50`; the spec's four-rule list leaves
the combination `uptrend ∧ rsi < 30` without a matching rule, so the model
returns absent there. -/
def checkTechnicals (price sma rsi : Option ℚ) : Option Light :=
  match price, sma, rsi with
  | some p, some m, some r =>
    if m < p ∧ 30 ≤ r ∧ r ≤ 70 then some Light.GREEN
    else if m < p ∧ 70 < r then some Light.YELLOW
    else if ¬(m < p) ∧ 30 ≤ r then some Light.YELLOW
    else if ¬(m < p) ∧ r < 30 then some Light.RED
    else none
  | _, _, _ => none

/-- Modelled from the spec: the ScreeningEngine — the ordered sequence of
the five check results (skips included as `none`). -/
def runChecks (m : DerivedMetrics) (price sma rsi : Option ℚ) : List (Option Light) :=
  [ checkMargins m.gross_margin_pct m.profit_margin_pct
  , checkPriceSales m.ps m.yoy_growth_pct m.fcf_margin_pct
  , checkRevenueGrowth m.yoy_growth_pct
  , checkCashDebt m.cash_debt
  , checkTechnicals price sma rsi ]

/-- Count of one light in a list of present results. -/
def countLight (l : Light) : List Light → ℕ
  | [] => 0
  | x :: xs => (if x = l then 1 else 0) + countLight l xs

/-- Modelled from the spec: the aggregation result (the Recommendation,
restricted to the fields aggregation itself determines: signal, confidence,
and the ordered check results). -/
structure Recommendation where
  signal : Signal
  confidence : Confidence
  checks : List (Option Light)
deriving DecidableEq, Repr

/-- Modelled from the spec: `SignalAggregator.aggregate`.  With no present
result the outcome is the explicit HOLD/LOW policy; otherwise SELL is
evaluated first (`reds ≥ total/2` over exact rationals), then BUY, else
HOLD; confidence comes from `differs = total − count(majority)` with the
majority tie broken by the precedence GREEN > YELLOW > RED. -/
def aggregate (rs : List (Option Light)) : Recommendation :=
  let present := rs.filterMap id
  let total := present.length
  let greens := countLight Light.GREEN present
  let yellows := countLight Light.YELLOW present
  let reds := countLight Light.RED present
  if total = 0 then
    { signal := Signal.HOLD, confidence := Confidence.LOW, checks := rs }
  else
    let signal :=
      if (reds : ℚ) ≥ (total : ℚ) / 2 then Signal.SELL
      else if (greens : ℚ) ≥ (total : ℚ) / 2 then Signal.BUY
      else Signal.HOLD
    let majorityCount :=
      if greens ≥ yellows ∧ greens ≥ reds then greens
      else if yellows ≥ reds then yellows
      else reds
    let differs := total - majorityCount
    let confidence :=
      if differs = 0 then Confidence.HIGH
      else if differs = 1 then Confidence.MEDIUM
      else Confidence.LOW
    { signal := signal, confidence := confidence, checks := rs }

/-- Modelled from the spec: the RecommendationPipeline, from snapshot to
recommendation (acquisition, caching and rendering are external). -/
def recommend (s : TickerSnapshot) : Recommendation :=
  aggregate (runChecks (derive s) s.close_price s.sma50 s.rsi14)

/-- Spec-side restatement (§4.3 signal rule): SELL is evaluated first,
`reds ≥ total/2` over exact rationals; else BUY on `greens ≥ total/2`;
else HOLD. -/
def signalSpec (reds greens total : ℕ) : Signal :=
  if (reds : ℚ) ≥ (total : ℚ) / 2 then Signal.SELL
  else if (greens : ℚ) ≥ (total : ℚ) / 2 then Signal.BUY
  else Signal.HOLD

/-- Spec-side restatement (§4.3 confidence rule): `differs` is total minus
the count of the majority light; since the majority light is one of maximal
count, its count is the maximum of the three counts whatever the tie-break;
HIGH at 0, MEDIUM at 1, LOW otherwise (including no data at all). -/
def confidenceSpec (greens yellows reds : ℕ) : Confidence :=
  let total := greens + yellows + reds
  let differs := total - max greens (max yellows reds)
  if total = 0 then Confidence.LOW
  else if differs = 0 then Confidence.HIGH
  else if differs = 1 then Confidence.MEDIUM
  else Confidence.LOW

lemma countLight_total (l : List Light) :
    countLight Light.GREEN l + countLight Light.YELLOW l + countLight Light.RED l = l.length := by
  induction l with
  | nil => rfl
  | cons x xs ih => cases x <;> simp [countLight] <;> omega

lemma majority_eq_max (g y r : ℕ) :
    (if g ≥ y ∧ g ≥ r then g else if y ≥ r then y else r) = max g (max y r) := by
  by_cases h1 : g ≥ y ∧ g ≥ r
  · simp only [if_pos h1]; omega
  · simp only [if_neg h1]
    by_cases h2 : y ≥ r
    · simp only [if_pos h2]; omega
    · simp only [if_neg h2]; omega

/-- C1: if the number of present check results (total) is 0, then aggregate
returns signal HOLD and confidence LOW. -/
theorem aggregate_no_data_hold_low (rs : List (Option Light))
    (h : (rs.filterMap id).length = 0) :
    (aggregate rs).signal = Signal.HOLD ∧ (aggregate rs).confidence = Confidence.LOW := by
  simp [aggregate, h]

/-- Witness for C1: two skipped checks give total 0, hence HOLD with LOW. -/
theorem aggregate_no_data_hold_low_witness :
    (([none, none] : List (Option Light)).filterMap id).length = 0 ∧
      ((aggregate [none, none]).signal = Signal.HOLD ∧
        (aggregate [none, none]).confidence = Confidence.LOW) :=
  ⟨by simp, aggregate_no_data_hold_low [none, none] (by simp)⟩

/-- C2: with at least one present result, aggregate evaluates the SELL
condition first: SELL if `reds ≥ total/2` (exact rational halves), else BUY
if `greens ≥ total/2`, else HOLD. -/
theorem aggregate_signal_sell_first (rs : List (Option Light))
    (h : 1 ≤ (rs.filterMap id).length) :
    (aggregate rs).signal =
      signalSpec (countLight Light.RED (rs.filterMap id))
        (countLight Light.GREEN (rs.filterMap id)) (rs.filterMap id).length := by
  have h0 : ¬((rs.filterMap id).length = 0) := by omega
  simp [aggregate, signalSpec, h0]

/-- Witness for C2: 3 RED and 2 YELLOW of 5 — the SELL threshold 3 ≥ 2.5
fires first. -/
theorem aggregate_signal_sell_first_witness :
    1 ≤ (([some Light.RED, some Light.RED, some Light.RED, some Light.YELLOW,
        some Light.YELLOW] : List (Option Light)).filterMap id).length ∧
      (aggregate [some Light.RED, some Light.RED, some Light.RED, some Light.YELLOW,
          some Light.YELLOW]).signal =
        signalSpec
          (countLight Light.RED
            (([some Light.RED, some Light.RED, some Light.RED, some Light.YELLOW,
              some Light.YELLOW] : List (Option Light)).filterMap id))
          (countLight Light.GREEN
            (([some Light.RED, some Light.RED, some Light.RED, some Light.YELLOW,
              some Light.YELLOW] : List (Option Light)).filterMap id))
          (([some Light.RED, some Light.RED, some Light.RED, some Light.YELLOW,
            some Light.YELLOW] : List (Option Light)).filterMap id).length :=
  ⟨by simp, aggregate_signal_sell_first _ (by simp)⟩

/-- C3: for every sequence of results, aggregate's confidence equals the
spec rule: `differs = total − count(majority)` with the majority the light
of highest count (tie precedence GREEN > YELLOW > RED does not change that
count); HIGH at differs 0, MEDIUM at 1, LOW otherwise, including total 0. -/
theorem aggregate_confidence_majority (rs : List (Option Light)) :
    (aggregate rs).confidence =
      confidenceSpec (countLight Light.GREEN (rs.filterMap id))
        (countLight Light.YELLOW (rs.filterMap id))
        (countLight Light.RED (rs.filterMap id)) := by
  have htot := countLight_total (rs.filterMap id)
  rcases Nat.eq_zero_or_pos (rs.filterMap id).length with h0 | h0
  · have hz : countLight Light.GREEN (rs.filterMap id) + countLight Light.YELLOW (rs.filterMap id)
        + countLight Light.RED (rs.filterMap id) = 0 := by omega
    simp [aggregate, confidenceSpec, h0, hz]
  · have h0' : ¬((rs.filterMap id).length = 0) := by omega
    have hnz : ¬(countLight Light.GREEN (rs.filterMap id) + countLight Light.YELLOW (rs.filterMap id)
        + countLight Light.RED (rs.filterMap id) = 0) := by omega
    simp only [aggregate, confidenceSpec, if_neg h0', if_neg hnz, majority_eq_max, htot]

/-- C4: a defined Cash/Debt ratio exactly equal to 0.5 lands in the YELLOW
band of check 4 (first-match-wins assigns the 0.5 boundary to YELLOW, not
RED). -/
theorem checkCashDebt_boundary_half_yellow :
    checkCashDebt (some (1 / 2)) = some Light.YELLOW ∧
      checkCashDebt (some (1 / 2)) ≠ some Light.RED := by
  norm_num [checkCashDebt]
  intro hcontra
  exact Light.noConfusion hcontra

/-- C5: with price, SMA50 and RSI all defined, price equal to SMA50 (so no
uptrend) and RSI ≥ 30, check 5 returns YELLOW — the not-uptrend branch
covers the price-equals-SMA50 boundary. -/
theorem checkTechnicals_price_eq_sma_yellow (p r : ℚ) (h : 30 ≤ r) :
    checkTechnicals (some p) (some p) (some r) = some Light.YELLOW := by
  have hnot : ¬(p < p) := lt_irrefl p
  simp [checkTechnicals, hnot, h]

/-- Witness for C5: price and SMA50 both 264.35, RSI 48.9 ≥ 30 — YELLOW. -/
theorem checkTechnicals_price_eq_sma_yellow_witness :
    (30 : ℚ) ≤ 48.9 ∧
      checkTechnicals (some 264.35) (some 264.35) (some 48.9) = some Light.YELLOW :=
  ⟨by norm_num, checkTechnicals_price_eq_sma_yellow 264.35 48.9 (by norm_num)⟩

/-- C6: a defined P/S of at least 20 makes check 2 RED, whatever the values
or undefinedness of YoY growth and FCF margin. -/
theorem checkPriceSales_high_ps_red (v : ℚ) (yoy fcf : Option ℚ) (h : 20 ≤ v) :
    checkPriceSales (some v) yoy fcf = some Light.RED := by
  have h1 : ¬(v ≤ 10) := by linarith
  have h2 : ¬(v < 20) := by linarith
  simp [checkPriceSales, h1, h2]

/-- Witness for C6: P/S 25.3 with growth absent and FCF 100 — still RED. -/
theorem checkPriceSales_high_ps_red_witness :
    (20 : ℚ) ≤ 25.3 ∧ checkPriceSales (some 25.3) none (some 100) = some Light.RED :=
  ⟨by norm_num, checkPriceSales_high_ps_red 25.3 none (some 100) (by norm_num)⟩

lemma marginPct_rev_none (a : Option ℚ) : marginPct a none = none := by
  cases a <;> rfl

lemma marginPct_rev_zero (a : Option ℚ) : marginPct a (some 0) = none := by
  cases a <;> simp [marginPct]

lemma sumOpt_eq_none_iff (l : List (Option ℚ)) : sumOpt l = none ↔ none ∈ l := by
  induction l with
  | nil => simp [sumOpt]
  | cons o rest ih => cases o <;> simp [sumOpt, ih]

lemma sumOpt_map_some (l : List ℚ) : sumOpt (l.map some) = some l.sum := by
  induction l with
  | nil => rfl
  | cons x rest ih => simp [sumOpt, ih]

lemma none_mem_take_map (f : QuarterlyFinancials → Option ℚ)
    (qs : List QuarterlyFinancials) (n : ℕ) :
    none ∈ (qs.map f).take n ↔ ∃ q ∈ qs.take n, f q = none := by
  rw [← List.map_take]
  exact List.mem_map

/-- A four-quarter sample snapshot whose TTM net income is negative. -/
def qSample : QuarterlyFinancials :=
  { revenues := some 10
    gross_profit := some 4
    operating_income_loss := some 3
    net_income_loss := some (-1)
    other_current_assets := some 2
    long_term_debt := some 3
    current_liabilities := some 1
    operating_cash_flow := some 2
    investing_cash_flow := some (-1)
    fiscal_period := "Q" }

/-- Sample snapshot of a loss-making company: EPS derives to −2. -/
def snapNegEps : TickerSnapshot :=
  { name := some "Sample"
    market_cap := some 100
    shares_outstanding := some 2
    close_price := some 10
    quarters := [qSample, qSample, qSample, qSample]
    sma50 := some 10
    rsi14 := some 50 }

/-- Degenerate sample snapshot: zero shares outstanding, no quarters. -/
def snapZero : TickerSnapshot :=
  { name := none
    market_cap := none
    shares_outstanding := some 0
    close_price := none
    quarters := []
    sma50 := none
    rsi14 := none }

/-- C7: P/E is close price over EPS only when EPS > 0; whenever the derived
EPS is undefined, zero or negative, the P/E is undefined — never a negative
ratio. -/
theorem derive_pe_needs_positive_eps (s : TickerSnapshot) :
    ((derive s).eps = none → (derive s).pe = none) ∧
    (∀ e, (derive s).eps = some e → e ≤ 0 → (derive s).pe = none) ∧
    (∀ v, (derive s).pe = some v →
      ∃ p e, s.close_price = some p ∧ (derive s).eps = some e ∧ 0 < e ∧ v = p / e) := by
  simp only [derive]
  refine ⟨?_, ?_, ?_⟩
  · intro h
    rcases hc : s.close_price with _ | p <;> simp [peOf, h, hc]
  · intro e he hle
    have hnpos : ¬(0 < e) := not_lt.mpr hle
    rcases hc : s.close_price with _ | p <;> simp [peOf, he, hc, hnpos]
  · intro v hv
    rcases hc : s.close_price with _ | p <;> rcases he : epsOf s with _ | e <;>
      simp [peOf, hc, he] at hv
    exact ⟨p, e, rfl, rfl, hv.1, hv.2.symm⟩

/-- Witness for C7: the sample loss-making snapshot has EPS −2 ≤ 0, so its
P/E is undefined. -/
theorem derive_pe_needs_positive_eps_witness :
    ((derive snapNegEps).eps = some (-2) ∧ (-2 : ℚ) ≤ 0) ∧ (derive snapNegEps).pe = none :=
  ⟨⟨by norm_num [derive, epsOf, ttmNetIncomeOf, recentWindow, sumOpt, snapNegEps, qSample],
    by norm_num⟩,
   (derive_pe_needs_positive_eps snapNegEps).2.1 (-2)
     (by norm_num [derive, epsOf, ttmNetIncomeOf, recentWindow, sumOpt, snapNegEps, qSample])
     (by norm_num)⟩

/-- C8: TTM revenue and TTM net income are sums over the recent 4-quarter
window: undefined when fewer than 4 quarters are supplied, undefined exactly
when some window quarter lacks the field, and equal to the full sum when all
four values are present — no partial sums over fewer quarters. -/
theorem derive_ttm_no_partial_sums (s : TickerSnapshot) :
    (s.quarters.length < 4 →
      (derive s).ttm_revenue = none ∧ (derive s).ttm_net_income = none) ∧
    (4 ≤ s.quarters.length →
      ((derive s).ttm_revenue = none ↔
        ∃ q ∈ s.quarters.take 4, q.revenues = none) ∧
      ((derive s).ttm_net_income = none ↔
        ∃ q ∈ s.quarters.take 4, q.net_income_loss = none) ∧
      (∀ l : List ℚ, (s.quarters.take 4).map QuarterlyFinancials.revenues = l.map some →
        (derive s).ttm_revenue = some l.sum) ∧
      (∀ l : List ℚ, (s.quarters.take 4).map QuarterlyFinancials.net_income_loss = l.map some →
        (derive s).ttm_net_income = some l.sum)) := by
  constructor
  · intro h
    have h4 : ¬(4 ≤ s.quarters.length) := by omega
    simp [derive, ttmRevenueOf, ttmNetIncomeOf, recentWindow, h4]
  · intro h
    refine ⟨?_, ?_, ?_, ?_⟩
    · simp [derive, ttmRevenueOf, recentWindow, h, sumOpt_eq_none_iff]
      exact none_mem_take_map _ _ _
    · simp [derive, ttmNetIncomeOf, recentWindow, h, sumOpt_eq_none_iff]
      exact none_mem_take_map _ _ _
    · intro l hl
      simp [derive, ttmRevenueOf, recentWindow, h, hl, sumOpt_map_some]
    · intro l hl
      simp [derive, ttmNetIncomeOf, recentWindow, h, hl, sumOpt_map_some]

/-- Witness for C8: the four-quarter sample snapshot satisfies the window
characterisation; in particular its TTM revenue is the full four-quarter
sum 40. -/
theorem derive_ttm_no_partial_sums_witness :
    4 ≤ snapNegEps.quarters.length ∧ (derive snapNegEps).ttm_revenue = some ([(10 : ℚ), 10, 10, 10].sum) :=
  ⟨by simp [snapNegEps],
    ((derive_ttm_no_partial_sums snapNegEps).2 (by simp [snapNegEps])).2.2.1
      [10, 10, 10, 10] (by simp [snapNegEps, qSample])⟩

/-- C9: the derivation's division guards — a zero or undefined denominator
(shares outstanding, TTM revenue, total debt, prior-window revenue sum)
yields an undefined metric, and an undefined metric propagates to a skipped
check; `derive` itself is a total function, so no evaluation can raise. -/
theorem derive_guards_never_raise (s : TickerSnapshot) :
    ((s.shares_outstanding = none ∨ s.shares_outstanding = some 0) → (derive s).eps = none) ∧
    (((derive s).ttm_revenue = none ∨ (derive s).ttm_revenue = some 0) →
      (derive s).ps = none ∧ (derive s).gross_margin_pct = none ∧
        (derive s).operating_margin_pct = none ∧ (derive s).profit_margin_pct = none ∧
        (derive s).fcf_margin_pct = none) ∧
    ((derive s).ttm_revenue = none → (derive s).yoy_growth_pct = none) ∧
    ((priorRevSum s = none ∨ priorRevSum s = some 0) → (derive s).yoy_growth_pct = none) ∧
    (((derive s).total_debt = none ∨ (derive s).total_debt = some 0) →
      (derive s).cash_debt = none) ∧
    (∀ a b, checkMargins none a = none ∧ checkMargins a none = none ∧
      checkPriceSales none a b = none ∧ checkTechnicals none a b = none ∧
      checkTechnicals a none b = none ∧ checkTechnicals a b none = none) ∧
    checkRevenueGrowth none = none ∧ checkCashDebt none = none := by
  refine ⟨?_, ?_, ?_, ?_, ?_, ?_, rfl, rfl⟩
  · intro h
    rcases hn : ttmNetIncomeOf s with _ | ni <;> rcases h with h | h <;>
      simp [derive, epsOf, hn, h]
  · intro h
    simp only [derive] at h ⊢
    rcases h with h | h <;> rcases hmc : s.market_cap with _ | mc <;>
      simp [psOf, grossMarginOf, operatingMarginOf, profitMarginOf, fcfMarginOf, h, hmc,
        marginPct_rev_none, marginPct_rev_zero]
  · intro h
    simp only [derive] at h ⊢
    simp [yoyGrowthOf, h]
  · intro h
    rcases h with h | h <;> rcases ht : ttmRevenueOf s with _ | recent <;>
      simp [derive, yoyGrowthOf, h, ht]
  · intro h
    simp only [derive] at h ⊢
    rcases h with h | h <;> rcases hc : cashOf s with _ | c <;>
      simp [cashDebtOf, h, hc]
  · intro a b
    refine ⟨?_, ?_, ?_, ?_, ?_, ?_⟩ <;> cases a <;> cases b <;>
      simp [checkMargins, checkPriceSales, checkTechnicals]

/-- Witness for C9: zero shares outstanding makes EPS undefined. -/
theorem derive_guards_never_raise_witness :
    (snapZero.shares_outstanding = none ∨ snapZero.shares_outstanding = some 0) ∧
      (derive snapZero).eps = none :=
  ⟨Or.inr rfl, (derive_guards_never_raise snapZero).1 (Or.inr rfl)⟩

/-- The golden AAPL metrics of the documentation's worked example (§8). -/
def goldenMetrics : DerivedMetrics :=
  { ttm_revenue := some 435600000000
    ttm_net_income := some 117800000000
    eps := some 8.02
    pe := some 32.96
    ps := some 8.91
    gross_margin_pct := some 47.33
    operating_margin_pct := some 32.38
    profit_margin_pct := some 27.04
    fcf_margin_pct := some 31.22
    yoy_growth_pct := some 10.07
    cash := none
    total_debt := none
    cash_debt := some 0.61 }

/-- The golden scenario's check results: price 264.35 below SMA50 266.74,
RSI 48.9. -/
def goldenChecks : List (Option Light) :=
  runChecks goldenMetrics (some 264.35) (some 266.74) (some 48.9)

lemma goldenChecks_eval :
    goldenChecks = [some Light.YELLOW, some Light.GREEN, some Light.YELLOW,
      some Light.YELLOW, some Light.YELLOW] := by
  norm_num [goldenChecks, goldenMetrics, runChecks, checkMargins, checkPriceSales,
    checkRevenueGrowth, checkCashDebt, checkTechnicals]

lemma aggregate_golden_list :
    aggregate [some Light.YELLOW, some Light.GREEN, some Light.YELLOW,
        some Light.YELLOW, some Light.YELLOW] =
      { signal := Signal.HOLD, confidence := Confidence.MEDIUM,
        checks := [some Light.YELLOW, some Light.GREEN, some Light.YELLOW,
          some Light.YELLOW, some Light.YELLOW] } := by
  have hp : List.filterMap id [some Light.YELLOW, some Light.GREEN, some Light.YELLOW,
      some Light.YELLOW, some Light.YELLOW] =
      [Light.YELLOW, Light.GREEN, Light.YELLOW, Light.YELLOW, Light.YELLOW] := rfl
  have hg : countLight Light.GREEN
      [Light.YELLOW, Light.GREEN, Light.YELLOW, Light.YELLOW, Light.YELLOW] = 1 := rfl
  have hy : countLight Light.YELLOW
      [Light.YELLOW, Light.GREEN, Light.YELLOW, Light.YELLOW, Light.YELLOW] = 4 := rfl
  have hr : countLight Light.RED
      [Light.YELLOW, Light.GREEN, Light.YELLOW, Light.YELLOW, Light.YELLOW] = 0 := rfl
  simp only [aggregate, hp, hg, hy, hr]
  norm_num

/-- Counterexample to C10: the golden scenario does yield the claimed check
lights, totals and signal HOLD, but the §4.3 confidence rule gives MEDIUM
(majority YELLOW with count 4, so differs = 1), not LOW as the claim
states. -/
theorem golden_confidence_not_low :
    goldenChecks = [some Light.YELLOW, some Light.GREEN, some Light.YELLOW,
        some Light.YELLOW, some Light.YELLOW] ∧
      (aggregate goldenChecks).signal = Signal.HOLD ∧
      (aggregate goldenChecks).confidence ≠ Confidence.LOW := by
  refine ⟨goldenChecks_eval, ?_, ?_⟩ <;> rw [goldenChecks_eval, aggregate_golden_list]
  intro hcontra
  exact Confidence.noConfusion hcontra

/-- C10 (amended): the golden AAPL input yields checks
[YELLOW, GREEN, YELLOW, YELLOW, YELLOW], total 5, greens 1, reds 0, signal
HOLD — and confidence MEDIUM under the §4.3 rule. -/
theorem golden_hold_medium :
    goldenChecks = [some Light.YELLOW, some Light.GREEN, some Light.YELLOW,
        some Light.YELLOW, some Light.YELLOW] ∧
      (goldenChecks.filterMap id).length = 5 ∧
      countLight Light.GREEN (goldenChecks.filterMap id) = 1 ∧
      countLight Light.RED (goldenChecks.filterMap id) = 0 ∧
      (aggregate goldenChecks).signal = Signal.HOLD ∧
      (aggregate goldenChecks).confidence = Confidence.MEDIUM := by
  refine ⟨goldenChecks_eval, ?_, ?_, ?_, ?_, ?_⟩ <;>
    rw [goldenChecks_eval] <;>
    first
      | rfl
      | (rw [aggregate_golden_list])

end Span
